import Mathlib

/-!
Shallow embedding of the keybox access-control system
(`kbox_app`: `models.py`, `views.py`, `views_api.py`, `views_management.py`).

Conventions of the embedding:
* the relational store is a `KeyboxDB` value of lists of rows; primary keys
  are `Nat` ids carried in each row;
* wall-clock timestamps are `Int` seconds, times-of-day are `Nat` minutes
  since midnight, weekdays are the lowercase strings produced by
  `strftime("%A").lower()`;
* Django `objects.get`/`filter` become `List.find?`/`List.filter` over the
  row lists; `save` on a fetched row becomes a map replacing the row with
  the same id; `objects.create` appends a row with a fresh id (`nextLogId`);
* each HTTP view is modelled from the point where its request parameters
  have been extracted, returning the updated store and a response value.
-/

/-- `Faculty` row (`models.py`). -/
structure Faculty where
  id : Nat
  school_id : String
  full_name : String
  department : String
  is_active : Bool
deriving Repr, DecidableEq

/-- `Room` row (`models.py`). -/
structure Room where
  id : Nat
  code : String
  is_active : Bool
deriving Repr, DecidableEq

/-- `RFIDRegistration` row (`models.py`); the `faculty` foreign key is
embedded as the joined `Faculty` row (the views always `select_related` it). -/
structure RFIDRegistration where
  id : Nat
  rfid_code : String
  faculty : Faculty
  room_id : Nat
  is_active : Bool
deriving Repr, DecidableEq

/-- `RoomSchedule` row (`models.py`).  `day_of_week` is stored in the source
as a comma-separated string; the embedding carries the list of raw tokens of
that string (the result of `split(',')`), with `strip().lower()` applied at
each use site exactly as the views do. -/
structure RoomSchedule where
  id : Nat
  room_id : Nat
  semester : String
  day_of_week : List String
  start_time : Nat
  end_time : Nat
  subject : String
  faculty_id : Option Nat
  is_active : Bool
  updated_at : Int
deriving Repr, DecidableEq

/-- `TransactionLog` row (`models.py`): nullable `rfid`/`room`/`schedule`
foreign keys as ids, denormalized snapshot fields, term fields, open/close
times and the grant/denial data. -/
structure TransactionLog where
  id : Nat
  rfid : Option Nat
  room : Option Nat
  faculty_name : String
  room_code : String
  rfid_code : String
  academic_year : String
  semester : String
  open_time : Int
  close_time : Option Int
  access_granted : Bool
  denial_reason : Option String
  schedule : Option Nat
deriving Repr, DecidableEq

/-- `SystemSettings` singleton row (`models.py`): the current term. -/
structure SystemSettings where
  current_academic_year : String
  current_semester : String
deriving Repr, DecidableEq

/-- `ESP32Device` row (`models.py`). -/
structure ESP32Device where
  id : Nat
  device_name : String
  device_id : String
  room : Option Nat
  ip_address : Option String
  last_heartbeat : Option Int
  is_active : Bool
  firmware_version : String
deriving Repr, DecidableEq

/-- `ManualDoorLog` row (`models.py`); the `room` foreign key is embedded as
the joined `Room` row (the poll filters on `room__code`). -/
structure ManualDoorLog where
  id : Nat
  room : Room
  staff_user : Option String
  action : String
  timestamp : Int
  notes : String
deriving Repr, DecidableEq

/-- The relational store the views read and write. -/
structure KeyboxDB where
  rooms : List Room
  registrations : List RFIDRegistration
  schedules : List RoomSchedule
  logs : List TransactionLog
  settings : SystemSettings
  nextLogId : Nat
deriving Repr, DecidableEq

/-- The request clock of `rfid_swipe`: `now = timezone.localtime(...)`,
`current_day_full = now.strftime("%A").lower()`, `current_time = now.time()`,
plus the instant itself (`ts`) that is written into `open_time`/`close_time`. -/
structure SwipeClock where
  day : String
  time : Nat
  ts : Int
deriving Repr, DecidableEq

/-- `ESP32Device.is_online` (`models.py` lines 387-398): no heartbeat means
offline, otherwise online iff `last_heartbeat >= now - 30` seconds. -/
def ESP32Device.is_online (d : ESP32Device) (now : Int) : Bool :=
  match d.last_heartbeat with
  | none => false
  | some hb =>
    let time_threshold := now - 30
    decide (time_threshold ≤ hb)

/-- Python `str.lower()` on the character list of a string. -/
def lowerStr (s : String) : String := String.mk (s.data.map Char.toLower)

/-- Python `str.strip()`: whitespace removed from both ends. -/
def stripStr (s : String) : String :=
  String.mk ((s.data.dropWhile (fun c => c.isWhitespace)).reverse.dropWhile
    (fun c => c.isWhitespace) |>.reverse)

/-- Python slicing `s[:n]`. -/
def takeStr (s : String) (n : Nat) : String := String.mk (s.data.take n)

/-- Python `str.capitalize()` restricted to what the views need: upper-case
the first character (the views only capitalize lowercase weekday names). -/
def capitalizeStr (s : String) : String :=
  match s.data with
  | [] => ""
  | c :: cs => String.mk (c.toUpper :: cs)

/-- `views.py` `rfid_swipe`: the `day_matches` list built from
`current_day_full` — the full lowercase name, its 3-letter abbreviation and
its capitalization. -/
def day_match_candidates (current_day_full : String) : List String :=
  [current_day_full, takeStr current_day_full 3, capitalizeStr current_day_full]

/-- `views.py` `rfid_swipe`:
`days_list = [d.strip().lower() for d in schedule.day_of_week.split(',')]`. -/
def daysListOf (s : RoomSchedule) : List String :=
  s.day_of_week.map (fun d => lowerStr (stripStr d))

/-- `views.py` `rfid_swipe`: `any(day in days_list for day in day_matches)`. -/
def scheduleDayMatch (s : RoomSchedule) (current_day_full : String) : Bool :=
  (day_match_candidates current_day_full).any (fun day => (daysListOf s).contains day)

/-- `views.py` `rfid_swipe`:
`schedule.start_time <= current_time <= schedule.end_time` (inclusive). -/
def scheduleTimeMatch (s : RoomSchedule) (current_time : Nat) : Bool :=
  decide (s.start_time ≤ current_time) && decide (current_time ≤ s.end_time)

/-- `views.py` `rfid_swipe`: the `matching_schedules` queryset —
`RoomSchedule.objects.filter(room=room, faculty=rfid.faculty, semester=semester,
is_active=True)`. -/
def matchingSchedules (db : KeyboxDB) (rfid : RFIDRegistration) (room : Room) :
    List RoomSchedule :=
  db.schedules.filter (fun s =>
    s.room_id == room.id && s.faculty_id == some rfid.faculty.id &&
    s.semester == db.settings.current_semester && s.is_active)

/-- `views.py` `rfid_swipe`: `matching_schedules_filtered` — the matching
schedules whose day-set and time range both cover the current instant. -/
def grantedSchedules (db : KeyboxDB) (rfid : RFIDRegistration) (room : Room)
    (clock : SwipeClock) : List RoomSchedule :=
  (matchingSchedules db rfid room).filter (fun s =>
    scheduleDayMatch s clock.day && scheduleTimeMatch s clock.time)

/-- Rendering of a minutes-since-midnight value for the denial message; the
source formats the instant with `strftime('%I:%M %p')`. -/
def fmtClockTime (m : Nat) : String := toString (m / 60) ++ ":" ++ toString (m % 60)

/-- `views.py` `rfid_swipe`: the `OUTSIDE_SCHEDULED_TIME` denial text
`f"Outside of scheduled time (Current: {...})"`. -/
def outside_reason (current_time : Nat) : String :=
  "Outside of scheduled time (Current: " ++ fmtClockTime current_time ++ ")"

/-- `views.py` `rfid_swipe`: the `NO_SCHEDULE_TODAY` denial text
`f"No schedule for {current_day_full.capitalize()} in {semester} semester"`. -/
def no_schedule_reason (current_day_full semester : String) : String :=
  "No schedule for " ++ capitalizeStr current_day_full ++ " in " ++ semester ++ " semester"

/-- The open-session predicate of the `open_log` queryset in `rfid_swipe`:
`rfid=rfid, room=room, academic_year=..., semester=..., close_time__isnull=True,
access_granted=True`. -/
def isOpenFor (rid room_id : Nat) (ay sem : String) (t : TransactionLog) : Bool :=
  t.rfid == some rid && t.room == some room_id && t.academic_year == ay &&
  t.semester == sem && t.close_time == none && t.access_granted

/-- Number of open granted sessions for one (credential, room, term) key —
the quantity §3's "currently out" invariant bounds by 1. -/
def openCount (logs : List TransactionLog) (rid room_id : Nat) (ay sem : String) : Nat :=
  (logs.filter (isOpenFor rid room_id ay sem)).length

/-- `.order_by("-open_time").first()` on a list of logs: an element with
maximal `open_time` (the earliest such element, matching a stable descending
sort), `none` on the empty list. -/
def latestOpenLog : List TransactionLog → Option TransactionLog
  | [] => none
  | t :: ts =>
    match latestOpenLog ts with
    | none => some t
    | some u => if u.open_time > t.open_time then some u else some t

/-- `open_log.close_time = now; open_log.save()`: rewrite the row whose
primary key is `target`, setting `close_time`. -/
def closeLogAt (logs : List TransactionLog) (target : Nat) (ts : Int) :
    List TransactionLog :=
  logs.map (fun t => if t.id == target then { t with close_time := some ts } else t)

/-- The JSON envelope `rfid_swipe` returns to the controller. -/
structure SwipeResponse where
  status : String
  access_granted : Bool
  action : String
  faculty : String
  message : String
  denial_reason : String
  httpStatus : Nat
deriving Repr, DecidableEq

/-- An error envelope of `rfid_swipe` (the early-return denials). -/
def swipeError (httpStatus : Nat) (faculty message denial : String) : SwipeResponse :=
  { status := "error", access_granted := false, action := "", faculty := faculty,
    message := message, denial_reason := denial, httpStatus := httpStatus }

/-- `views.py` `rfid_swipe`, lines 488-500: the denial reason selection —
`OUTSIDE_SCHEDULED_TIME` when some matching schedule covers today's weekday
(`day_only_match`), `NO_SCHEDULE_TODAY` otherwise. -/
def swipeDenialReason (db : KeyboxDB) (rfid : RFIDRegistration) (room : Room)
    (clock : SwipeClock) : String :=
  let day_only_match :=
    (matchingSchedules db rfid room).any (fun s => scheduleDayMatch s clock.day)
  if day_only_match then outside_reason clock.time
  else no_schedule_reason clock.day db.settings.current_semester

/-- `views.py` `rfid_swipe`, lines 416-571: the body after both validations
have passed — evaluate the schedule windows for the current term, then either
close the latest open session (`return_key`), insert a new open session
(`borrow_key`), or insert a denied record carrying the denial reason. -/
def recordAttempt (db : KeyboxDB) (rfid : RFIDRegistration) (room : Room)
    (clock : SwipeClock) : KeyboxDB × SwipeResponse :=
  let semester := db.settings.current_semester
  let academic_year := db.settings.current_academic_year
  let filtered := grantedSchedules db rfid room clock
  let access_granted := !filtered.isEmpty
  let active_schedule := filtered.head?
  let open_log :=
    latestOpenLog (db.logs.filter (isOpenFor rfid.id room.id academic_year semester))
  if access_granted then
    match open_log with
    | some x =>
      ({ db with logs := closeLogAt db.logs x.id clock.ts },
       { status := "ok", access_granted := true, action := "return_key",
         faculty := rfid.faculty.full_name,
         message := "Key returned successfully", denial_reason := "",
         httpStatus := 200 })
    | none =>
      let newLog : TransactionLog :=
        { id := db.nextLogId, rfid := some rfid.id, room := some room.id,
          faculty_name := "", room_code := "", rfid_code := "",
          academic_year := academic_year, semester := semester,
          open_time := clock.ts, close_time := none,
          access_granted := true, denial_reason := none,
          schedule := active_schedule.map (fun s => s.id) }
      ({ db with logs := db.logs ++ [newLog], nextLogId := db.nextLogId + 1 },
       { status := "ok", access_granted := true, action := "borrow_key",
         faculty := rfid.faculty.full_name,
         message := "Access granted - Key released", denial_reason := "",
         httpStatus := 200 })
  else
    let reason := swipeDenialReason db rfid room clock
    let deniedLog : TransactionLog :=
      { id := db.nextLogId, rfid := some rfid.id, room := some room.id,
        faculty_name := "", room_code := "", rfid_code := "",
        academic_year := academic_year, semester := semester,
        open_time := clock.ts, close_time := none,
        access_granted := false, denial_reason := some reason,
        schedule := none }
    ({ db with logs := db.logs ++ [deniedLog], nextLogId := db.nextLogId + 1 },
     { status := "error", access_granted := false, action := "",
       faculty := rfid.faculty.full_name,
       message := "Access denied: " ++ reason, denial_reason := reason,
       httpStatus := 200 })

/-- `views.py` `rfid_swipe` (lines 329-571), from the point where both request
parameters are present: resolve the badge and the room, check their active
flags (each failure returns an error envelope without writing anything), then
run `recordAttempt`. -/
def rfid_swipe (db : KeyboxDB) (code room_code : String) (clock : SwipeClock) :
    KeyboxDB × SwipeResponse :=
  match db.registrations.find? (fun r => r.rfid_code == code) with
  | none =>
    (db, swipeError 404 "" "RFID card not registered" "Card UID not found in database")
  | some rfid =>
    if !rfid.is_active then
      (db, swipeError 403 rfid.faculty.full_name "RFID card is disabled"
        "This card has been deactivated")
    else
      match db.rooms.find? (fun r => r.code == room_code) with
      | none =>
        (db, swipeError 404 rfid.faculty.full_name "Unknown room code"
          ("Room " ++ room_code ++ " not found in system"))
      | some room =>
        if !room.is_active then
          (db, swipeError 403 rfid.faculty.full_name "Room is disabled"
            ("Room " ++ room_code ++ " is currently inactive"))
        else
          recordAttempt db rfid room clock

/-- The short JSON envelope of the pure-API endpoints. -/
structure ApiResponse where
  status : String
  httpStatus : Nat
deriving Repr, DecidableEq

/-- `views_api.py` `esp32_log_offline_access` (lines 174-230), from the point
where the JSON body has been read: resolve the badge registration and the
room by code (no active-flag filter); a failed lookup raises and is answered
with a 500 without writing; otherwise unconditionally insert one new
`TransactionLog` whose `open_time` is the controller-supplied offline
timestamp and whose `access_granted` is the controller-supplied flag, with
snapshot fields filled and the current term stamped. -/
def esp32_log_offline_access (db : KeyboxDB) (room_code rfid_code : String)
    (access_granted : Bool) (timestamp : Int) : KeyboxDB × ApiResponse :=
  match db.registrations.find? (fun r => r.rfid_code == rfid_code) with
  | none => (db, { status := "error", httpStatus := 500 })
  | some rfid =>
    match db.rooms.find? (fun r => r.code == room_code) with
    | none => (db, { status := "error", httpStatus := 500 })
    | some room =>
      let newLog : TransactionLog :=
        { id := db.nextLogId, rfid := some rfid.id, room := some room.id,
          faculty_name := rfid.faculty.full_name, room_code := room_code,
          rfid_code := rfid_code,
          academic_year := db.settings.current_academic_year,
          semester := db.settings.current_semester,
          open_time := timestamp, close_time := none,
          access_granted := access_granted, denial_reason := none,
          schedule := none }
      ({ db with logs := db.logs ++ [newLog], nextLogId := db.nextLogId + 1 },
       { status := "success", httpStatus := 200 })

/-- `.order_by('-timestamp').first()` on manual commands: an element with
maximal `timestamp` (the earliest such element, matching a stable descending
sort), `none` on the empty list. -/
def latestByTimestamp : List ManualDoorLog → Option ManualDoorLog
  | [] => none
  | c :: cs =>
    match latestByTimestamp cs with
    | none => some c
    | some u => if u.timestamp > c.timestamp then some u else some c

/-- `views.py` `manual_trigger_api` (lines 846-903), from the point where the
`room` parameter is present: among commands for that room code whose creation
timestamp is within the last 5 seconds (`timestamp >= now - 5`), return the
most recent, or `none`.  The handler only reads the command table — nothing
is mutated or marked consumed, which the read-only type records. -/
def manual_trigger_api (cmds : List ManualDoorLog) (room_code : String)
    (now : Int) : Option ManualDoorLog :=
  let recent_time := now - 5
  latestByTimestamp
    (cmds.filter (fun c => c.room.code == room_code && decide (recent_time ≤ c.timestamp)))

/-- `views_management.py` `manual_door_trigger` (lines 505-556): on a valid
action ("open"/"close") and an existing active room, append one
`ManualDoorLog` row stamped with the current instant (`auto_now_add`);
otherwise the command table is left unchanged. -/
def manual_door_trigger (cmds : List ManualDoorLog) (rooms : List Room)
    (nextCmdId : Nat) (room_id : Nat) (staff action notes : String)
    (now : Int) : List ManualDoorLog :=
  if action == "open" || action == "close" then
    match rooms.find? (fun r => r.id == room_id && r.is_active) with
    | some room =>
      cmds ++ [{ id := nextCmdId, room := room, staff_user := some staff,
                 action := action, timestamp := now, notes := notes }]
    | none => cmds
  else cmds

/-- `views.py` `esp32_heartbeat` (lines 950-983), from the point where the
device id has been extracted: look up an active device by hardware id; on
success rewrite that row with `last_heartbeat = now`, the caller's address,
and — only when a firmware version is supplied (non-empty) and differs from
the stored one — the new firmware version.  The Bool of the result is the
success flag of the JSON envelope. -/
def esp32_heartbeat (devices : List ESP32Device) (device_id : String)
    (firmware_version : Option String) (ip : String) (now : Int) :
    List ESP32Device × Bool :=
  match devices.find? (fun d => d.device_id == device_id && d.is_active) with
  | none => (devices, false)
  | some d =>
    let fw_changed :=
      match firmware_version with
      | some v => v != "" && v != d.firmware_version
      | none => false
    let updated : ESP32Device :=
      if fw_changed then
        { d with last_heartbeat := some now, ip_address := some ip,
                 firmware_version := firmware_version.getD d.firmware_version }
      else
        { d with last_heartbeat := some now, ip_address := some ip }
    (devices.map (fun e => if e.id == d.id then updated else e), true)

/-- `views_api.py` `esp32_check_updates` (lines 110-169), from the point where
the `room` parameter is present: `none` models the 404 on an unknown or
inactive room; otherwise answer whether a re-download is needed.
`last_sync = none` models both an absent `last_sync` parameter and one
`parse_datetime` cannot parse — the source forces `needs_update = True` on
both paths (the parse failure lands in the bare `except`). -/
def esp32_check_updates (rooms : List Room) (schedules : List RoomSchedule)
    (settings : SystemSettings) (room_code : String) (last_sync : Option Int) :
    Option Bool :=
  match rooms.find? (fun r => r.code == room_code && r.is_active) with
  | none => none
  | some room =>
    match last_sync with
    | none => some true
    | some ts =>
      some (decide (0 < (schedules.filter (fun s =>
        s.room_id == room.id && s.semester == settings.current_semester &&
        decide (ts < s.updated_at))).length))

/-! Concrete fixture data used by witnesses and counterexamples: one active
faculty, room "203", badge "RFID-001", a monday/wednesday 08:00-10:00 window
for the current term — the scenario of spec §8. -/

/-- Fixture: an active faculty member. -/
def sampleFaculty : Faculty :=
  { id := 1, school_id := "F001", full_name := "Alice Reyes",
    department := "CCIS", is_active := true }

/-- Fixture: active room "203". -/
def sampleRoom : Room := { id := 1, code := "203", is_active := true }

/-- Fixture: active badge "RFID-001" for `sampleFaculty` and `sampleRoom`. -/
def sampleReg : RFIDRegistration :=
  { id := 1, rfid_code := "RFID-001", faculty := sampleFaculty,
    room_id := 1, is_active := true }

/-- Fixture: an active monday/wednesday 08:00-10:00 window (480-600 minutes)
for `sampleRoom`, `sampleFaculty`, term "1st". -/
def sampleSched : RoomSchedule :=
  { id := 7, room_id := 1, semester := "1st",
    day_of_week := ["monday", "wednesday"], start_time := 480, end_time := 600,
    subject := "OS", faculty_id := some 1, is_active := true, updated_at := 1000 }

/-- Fixture: store with no transactions yet, current term 2025-2026 / 1st. -/
def sampleDB : KeyboxDB :=
  { rooms := [sampleRoom], registrations := [sampleReg],
    schedules := [sampleSched], logs := [],
    settings := { current_academic_year := "2025-2026", current_semester := "1st" },
    nextLogId := 1 }

/-- Fixture: one open granted session for (badge 1, room 1, 2025-2026, 1st). -/
def sampleOpenLog : TransactionLog :=
  { id := 1, rfid := some 1, room := some 1, faculty_name := "",
    room_code := "", rfid_code := "", academic_year := "2025-2026",
    semester := "1st", open_time := 100, close_time := none,
    access_granted := true, denial_reason := none, schedule := some 7 }

/-- Fixture: `sampleDB` with the key currently out (`sampleOpenLog`). -/
def sampleDBOpen : KeyboxDB := { sampleDB with logs := [sampleOpenLog], nextLogId := 2 }

/-- Fixture: `sampleDB` with the badge deactivated. -/
def sampleDBInactive : KeyboxDB :=
  { sampleDB with registrations := [{ sampleReg with is_active := false }] }

/-- Fixture: Monday 08:30 (510 minutes), instant 200. -/
def mondayClock : SwipeClock := { day := "monday", time := 510, ts := 200 }

/-- Fixture: Tuesday 08:30, instant 300. -/
def tuesdayClock : SwipeClock := { day := "tuesday", time := 510, ts := 300 }

/-- Fixture: Monday 10:01 (601 minutes, one minute past `end_time`), instant 400. -/
def mondayLateClock : SwipeClock := { day := "monday", time := 601, ts := 400 }

/-- Fixture: a registered active controller with stale heartbeat data. -/
def sampleDevice : ESP32Device :=
  { id := 1, device_name := "ESP32-1", device_id := "AA:BB:CC:DD:EE:FF",
    room := some 1, ip_address := some "10.0.0.9", last_heartbeat := some 50,
    is_active := true, firmware_version := "1.0.0" }

/-- C6: `is_online` is true iff the device has a recorded heartbeat and
`now - last_heartbeat ≤ 30` seconds, the 30-second boundary being inclusive
(online at exactly 30s, offline at 31s); a device with no heartbeat is
offline. -/
theorem is_online_iff_within_30s (d : ESP32Device) (now : Int) :
    d.is_online now = true ↔
      ∃ hb, d.last_heartbeat = some hb ∧ now - hb ≤ 30 := by
  unfold ESP32Device.is_online
  cases h : d.last_heartbeat with
  | none => simp
  | some hb =>
    simp only [decide_eq_true_eq]
    constructor
    · intro hle
      exact ⟨hb, rfl, by omega⟩
    · rintro ⟨hb', hsome, hle⟩
      cases hsome
      omega

/-- C2 counterexample: an offline-captured granted event arriving while the
same (credential, room, term) key is already out does NOT close the open
record — the open record is left untouched and a brand-new open row is
inserted instead, so the merge does not apply the §4.2 open/close matching
rule. -/
theorem offline_merge_does_not_close_open_log :
    (esp32_log_offline_access sampleDBOpen "203" "RFID-001" true 150).1.logs =
      [sampleOpenLog,
       { id := 2, rfid := some 1, room := some 1, faculty_name := "Alice Reyes",
         room_code := "203", rfid_code := "RFID-001",
         academic_year := "2025-2026", semester := "1st", open_time := 150,
         close_time := none, access_granted := true, denial_reason := none,
         schedule := none }] := by decide

/-- C2 amended: whenever the badge and room codes of an offline event both
resolve, the merge unconditionally inserts exactly one new Transaction Record
with the controller-supplied timestamp as `open_time` and the supplied
granted flag — it never consults or closes an existing open record. -/
theorem offline_merge_always_inserts (db : KeyboxDB) (room_code rfid_code : String)
    (granted : Bool) (ts : Int) (rfid : RFIDRegistration) (room : Room)
    (hr : db.registrations.find? (fun r => r.rfid_code == rfid_code) = some rfid)
    (hroom : db.rooms.find? (fun r => r.code == room_code) = some room) :
    (esp32_log_offline_access db room_code rfid_code granted ts).1.logs =
      db.logs ++
        [{ id := db.nextLogId, rfid := some rfid.id, room := some room.id,
           faculty_name := rfid.faculty.full_name, room_code := room_code,
           rfid_code := rfid_code,
           academic_year := db.settings.current_academic_year,
           semester := db.settings.current_semester, open_time := ts,
           close_time := none, access_granted := granted, denial_reason := none,
           schedule := none }] := by
  unfold esp32_log_offline_access
  rw [hr, hroom]

/-- Witness for `offline_merge_always_inserts` at the fixture store. -/
theorem offline_merge_always_inserts_witness :
    (esp32_log_offline_access sampleDBOpen "203" "RFID-001" true 150).1.logs =
      sampleDBOpen.logs ++
        [{ id := sampleDBOpen.nextLogId, rfid := some sampleReg.id,
           room := some sampleRoom.id,
           faculty_name := sampleReg.faculty.full_name, room_code := "203",
           rfid_code := "RFID-001",
           academic_year := sampleDBOpen.settings.current_academic_year,
           semester := sampleDBOpen.settings.current_semester, open_time := 150,
           close_time := none, access_granted := true, denial_reason := none,
           schedule := none }] :=
  offline_merge_always_inserts sampleDBOpen "203" "RFID-001" true 150
    sampleReg sampleRoom (by decide) (by decide)

/-- C1 counterexample: the "currently out" count invariant is NOT preserved
by the offline-event merge — starting from a state with exactly one open
granted record for (badge 1, room 1, 2025-2026, 1st), merging a granted
offline event for the same key yields two open granted records. -/
theorem offline_merge_breaks_open_invariant :
    openCount sampleDBOpen.logs 1 1 "2025-2026" "1st" = 1 ∧
    openCount (esp32_log_offline_access sampleDBOpen "203" "RFID-001" true 150).1.logs
      1 1 "2025-2026" "1st" = 2 := by decide

/-- C3 counterexample: a swipe with a deactivated badge is a policy denial
(the envelope reports denied with the deactivation reason), yet no
Transaction Record at all is inserted — the denied decision skips the audit
insertion. -/
theorem inactive_credential_denial_not_logged :
    (rfid_swipe sampleDBInactive "RFID-001" "203" mondayClock).2.access_granted = false ∧
    (rfid_swipe sampleDBInactive "RFID-001" "203" mondayClock).2.denial_reason =
      "This card has been deactivated" ∧
    (rfid_swipe sampleDBInactive "RFID-001" "203" mondayClock).1.logs = [] := by decide

/-- C10: the offline merge ignores the active flags — whenever the badge and
room codes resolve at all, even to a deactivated credential or a deactivated
room, one Transaction Record is still inserted; on the live swipe path the
same deactivated credential produces no record. -/
theorem offline_merge_ignores_active_flags (db : KeyboxDB)
    (room_code rfid_code : String) (granted : Bool) (ts : Int)
    (clock : SwipeClock) (rfid : RFIDRegistration) (room : Room)
    (hr : db.registrations.find? (fun r => r.rfid_code == rfid_code) = some rfid)
    (hroom : db.rooms.find? (fun r => r.code == room_code) = some room)
    (_hinactive : rfid.is_active = false ∨ room.is_active = false) :
    (esp32_log_offline_access db room_code rfid_code granted ts).1.logs.length =
      db.logs.length + 1 ∧
    (rfid.is_active = false →
      (rfid_swipe db rfid_code room_code clock).1.logs = db.logs) := by
  constructor
  · unfold esp32_log_offline_access
    rw [hr, hroom]
    simp
  · intro hinact
    unfold rfid_swipe
    rw [hr]
    simp [hinact]

/-- Witness for `offline_merge_ignores_active_flags`: the fixture store with
the badge deactivated. -/
theorem offline_merge_ignores_active_flags_witness :
    (esp32_log_offline_access sampleDBInactive "203" "RFID-001" true 150).1.logs.length =
      sampleDBInactive.logs.length + 1 ∧
    (rfid_swipe sampleDBInactive "RFID-001" "203" mondayClock).1.logs =
      sampleDBInactive.logs :=
  ⟨(offline_merge_ignores_active_flags sampleDBInactive "203" "RFID-001" true 150
      mondayClock { sampleReg with is_active := false } sampleRoom
      (by decide) (by decide) (Or.inl (by decide))).1,
   (offline_merge_ignores_active_flags sampleDBInactive "203" "RFID-001" true 150
      mondayClock { sampleReg with is_active := false } sampleRoom
      (by decide) (by decide) (Or.inl (by decide))).2 (by decide)⟩

/-- C8: with an existing active room, the staleness answer is `true` iff some
Schedule Window for that room and the current semester was modified strictly
after the supplied last-sync instant; an absent or unparseable last-sync
always answers `true`. -/
theorem check_updates_stale_iff (rooms : List Room) (schedules : List RoomSchedule)
    (settings : SystemSettings) (room_code : String) (ts : Int) (room : Room)
    (hfind : rooms.find? (fun r => r.code == room_code && r.is_active) = some room) :
    (esp32_check_updates rooms schedules settings room_code (some ts) = some true ↔
      ∃ s ∈ schedules, s.room_id = room.id ∧
        s.semester = settings.current_semester ∧ ts < s.updated_at) ∧
    esp32_check_updates rooms schedules settings room_code none = some true := by
  unfold esp32_check_updates
  rw [hfind]
  refine ⟨?_, rfl⟩
  simp only [Option.some.injEq, decide_eq_true_eq]
  rw [List.length_pos]
  constructor
  · intro hne
    obtain ⟨s, hs⟩ := List.exists_mem_of_ne_nil _ hne
    have hmem := List.mem_filter.mp hs
    refine ⟨s, hmem.1, ?_⟩
    have := hmem.2
    simp only [Bool.and_eq_true, beq_iff_eq, decide_eq_true_eq] at this
    exact ⟨this.1.1, this.1.2, this.2⟩
  · rintro ⟨s, hmem, h1, h2, h3⟩
    intro hnil
    rw [List.filter_eq_nil_iff] at hnil
    exact hnil s hmem (by simp [h1, h2, h3])

/-- Witness for `check_updates_stale_iff` at the fixture store: last sync at
instant 999 is stale (the window was touched at 1000), and a missing last
sync is stale. -/
theorem check_updates_stale_iff_witness :
    (esp32_check_updates [sampleRoom] [sampleSched] sampleDB.settings "203"
        (some 999) = some true ↔
      ∃ s ∈ [sampleSched], s.room_id = sampleRoom.id ∧
        s.semester = sampleDB.settings.current_semester ∧ (999 : Int) < s.updated_at) ∧
    esp32_check_updates [sampleRoom] [sampleSched] sampleDB.settings "203" none =
      some true :=
  check_updates_stale_iff [sampleRoom] [sampleSched] sampleDB.settings "203" 999
    sampleRoom (by decide)

/-- C9: a successful heartbeat rewrites exactly the found device's row,
setting `last_heartbeat` to now and the last-known address, and writing
`firmware_version` only when a version is supplied (non-empty) and differs
from the stored one; every other field of that row and every other row are
left unchanged — visible in the `{ d with ... }` row updates below. -/
theorem heartbeat_frame (devices : List ESP32Device) (device_id : String)
    (fw : Option String) (ip : String) (now : Int) (d : ESP32Device)
    (hfind : devices.find? (fun e => e.device_id == device_id && e.is_active) = some d) :
    ((fw = none ∨ fw = some "" ∨ fw = some d.firmware_version) →
      (esp32_heartbeat devices device_id fw ip now).1 =
        devices.map (fun e => if e.id == d.id then
          { d with last_heartbeat := some now, ip_address := some ip } else e)) ∧
    (∀ v, fw = some v → v ≠ "" → v ≠ d.firmware_version →
      (esp32_heartbeat devices device_id fw ip now).1 =
        devices.map (fun e => if e.id == d.id then
          { d with last_heartbeat := some now, ip_address := some ip,
                   firmware_version := v } else e)) := by
  unfold esp32_heartbeat
  rw [hfind]
  constructor
  · rintro (h | h | h) <;> subst h <;> simp
  · intro v hv hne hdiff
    subst hv
    simp [bne_iff_ne, hne, hdiff]


/-- Witness for `heartbeat_frame`: a heartbeat carrying firmware "1.1.0"
(different from the stored "1.0.0") rewrites the device row, firmware
included. -/
theorem heartbeat_frame_witness :
    (esp32_heartbeat [sampleDevice] "AA:BB:CC:DD:EE:FF" (some "1.1.0")
        "10.0.0.7" 120).1 =
      [sampleDevice].map (fun e => if e.id == sampleDevice.id then
        { sampleDevice with last_heartbeat := some 120,
                            ip_address := some "10.0.0.7",
                            firmware_version := "1.1.0" } else e) :=
  by
    refine (heartbeat_frame [sampleDevice] "AA:BB:CC:DD:EE:FF" (some "1.1.0")
      "10.0.0.7" 120 sampleDevice (by decide)).2 "1.1.0" rfl ?_ ?_ <;> decide

/-- Helper: the stable descending-sort head returns a strictly-freshest
appended command. -/
theorem latestByTimestamp_append_max (l : List ManualDoorLog) (c : ManualDoorLog)
    (h : ∀ u ∈ l, u.timestamp < c.timestamp) :
    latestByTimestamp (l ++ [c]) = some c := by
  induction l with
  | nil => simp [latestByTimestamp]
  | cons a l ih =>
    have ha := h a (List.mem_cons_self a l)
    have ih' := ih (fun u hu => h u (List.mem_cons_of_mem a hu))
    rw [List.cons_append]
    unfold latestByTimestamp
    rw [ih']
    simp [gt_iff_lt, ha]

/-- C7: Command Relay round-trip.  After `manual_door_trigger` appends a
fresh manual command for room R, a poll for R within the 5-second recency
window returns exactly that command (it is the most recent in-window command
for R), and a poll after the window has elapsed, with no newer command,
returns none.  The poll reads the command table only; nothing is mutated or
marked consumed. -/
theorem command_roundtrip (cmds : List ManualDoorLog) (rooms : List Room)
    (nextCmdId room_id : Nat) (staff action notes : String)
    (t pollA pollB : Int) (room : Room)
    (haction : action = "open" ∨ action = "close")
    (hroom : rooms.find? (fun r => r.id == room_id && r.is_active) = some room)
    (hfresh : ∀ c ∈ cmds, c.room.code = room.code → c.timestamp < t) :
    (pollA - 5 ≤ t →
      manual_trigger_api
        (manual_door_trigger cmds rooms nextCmdId room_id staff action notes t)
        room.code pollA =
      some { id := nextCmdId, room := room, staff_user := some staff,
             action := action, timestamp := t, notes := notes }) ∧
    (t < pollB - 5 →
      manual_trigger_api
        (manual_door_trigger cmds rooms nextCmdId room_id staff action notes t)
        room.code pollB = none) := by
  have hcmds : manual_door_trigger cmds rooms nextCmdId room_id staff action notes t =
      cmds ++ [{ id := nextCmdId, room := room, staff_user := some staff,
                 action := action, timestamp := t, notes := notes }] := by
    unfold manual_door_trigger
    rcases haction with h | h <;> subst h <;> simp [hroom]
  constructor
  · intro hin
    rw [hcmds]
    simp only [manual_trigger_api]
    rw [List.filter_append]
    have hnew : List.filter
        (fun c : ManualDoorLog => c.room.code == room.code && decide (pollA - 5 ≤ c.timestamp))
        [{ id := nextCmdId, room := room, staff_user := some staff,
           action := action, timestamp := t, notes := notes }] =
        [{ id := nextCmdId, room := room, staff_user := some staff,
           action := action, timestamp := t, notes := notes }] := by
      simp
      omega
    rw [hnew]
    apply latestByTimestamp_append_max
    intro u hu
    have hm := List.mem_filter.mp hu
    have hp := hm.2
    simp only [Bool.and_eq_true, beq_iff_eq, decide_eq_true_eq] at hp
    exact hfresh u hm.1 hp.1
  · intro hout
    rw [hcmds]
    simp only [manual_trigger_api]
    have hempty : List.filter
        (fun c : ManualDoorLog => c.room.code == room.code && decide (pollB - 5 ≤ c.timestamp))
        (cmds ++ [{ id := nextCmdId, room := room, staff_user := some staff,
                    action := action, timestamp := t, notes := notes }]) = [] := by
      rw [List.filter_eq_nil_iff]
      intro c hc
      rcases List.mem_append.mp hc with hc | hc
      · simp only [Bool.and_eq_true, beq_iff_eq, decide_eq_true_eq, not_and]
        intro hcode hts
        exact absurd hts (by have := hfresh c hc hcode; omega)
      · rcases List.mem_singleton.mp hc with rfl
        simp only [Bool.and_eq_true, beq_iff_eq, decide_eq_true_eq, not_and]
        intro _ hts
        omega
  
    rw [hempty]
    rfl

/-- Witness for `command_roundtrip`: issuing an "open" command for room "203"
at instant 100, polling at 103 returns it, polling at 200 returns none. -/
theorem command_roundtrip_witness :
    manual_trigger_api
      (manual_door_trigger [] [sampleRoom] 1 1 "staff" "open" "" 100)
      sampleRoom.code 103 =
    some { id := 1, room := sampleRoom, staff_user := some "staff",
           action := "open", timestamp := 100, notes := "" } ∧
    manual_trigger_api
      (manual_door_trigger [] [sampleRoom] 1 1 "staff" "open" "" 100)
      sampleRoom.code 200 = none :=
  ⟨(command_roundtrip [] [sampleRoom] 1 1 "staff" "open" "" 100 103 200
      sampleRoom (Or.inl rfl) (by decide) (by simp)).1 (by decide),
   (command_roundtrip [] [sampleRoom] 1 1 "staff" "open" "" 100 103 200
      sampleRoom (Or.inl rfl) (by decide) (by simp)).2 (by decide)⟩

/-- Helper: the OUTSIDE_SCHEDULED_TIME text is never empty. -/
theorem outside_reason_ne_empty (t : Nat) : outside_reason t ≠ "" := by
  intro h
  have h2 := congrArg String.length h
  rw [outside_reason, String.length_append, String.length_append] at h2
  have e1 : ("Outside of scheduled time (Current: " : String).length = 36 := by decide
  have e2 : (")" : String).length = 1 := by decide
  have e3 : ("" : String).length = 0 := by decide
  rw [e1, e2, e3] at h2
  omega

/-- Helper: the NO_SCHEDULE_TODAY text is never empty. -/
theorem no_schedule_reason_ne_empty (d s : String) : no_schedule_reason d s ≠ "" := by
  intro h
  have h2 := congrArg String.length h
  rw [no_schedule_reason] at h2
  rw [String.length_append, String.length_append, String.length_append,
    String.length_append] at h2
  have e1 : ("No schedule for " : String).length = 16 := by decide
  have e2 : (" in " : String).length = 4 := by decide
  have e3 : (" semester" : String).length = 9 := by decide
  have e4 : ("" : String).length = 0 := by decide
  rw [e1, e2, e3, e4] at h2
  omega

/-- Helper: the two denial texts are distinct for every rendering of their
dynamic parts — the diagnostics distinction of §4.1 step 5 cannot collapse. -/
theorem outside_reason_ne_no_schedule (t : Nat) (d s : String) :
    outside_reason t ≠ no_schedule_reason d s := by
  intro h
  have h2 := congrArg (fun x : String => x.data.head?) h
  simp only [outside_reason, no_schedule_reason, String.data_append,
    List.head?_append] at h2
  have e1 : ("Outside of scheduled time (Current: " : String).data.head? =
      some 'O' := by decide
  have e2 : ("No schedule for " : String).data.head? = some 'N' := by decide
  rw [e1, e2] at h2
  simp [Option.or] at h2

/-- Helper: once the badge resolves active and the room resolves active, the
swipe endpoint is exactly `recordAttempt`. -/
theorem rfid_swipe_valid (db : KeyboxDB) (code room_code : String)
    (clock : SwipeClock) (rfid : RFIDRegistration) (room : Room)
    (hr : db.registrations.find? (fun r => r.rfid_code == code) = some rfid)
    (hact : rfid.is_active = true)
    (hroom : db.rooms.find? (fun r => r.code == room_code) = some room)
    (hroomact : room.is_active = true) :
    rfid_swipe db code room_code clock = recordAttempt db rfid room clock := by
  simp [rfid_swipe, hr, hact, hroom, hroomact]

/-- Helper: the denied branch of `recordAttempt` as an equation. -/
theorem recordAttempt_denied (db : KeyboxDB) (rfid : RFIDRegistration)
    (room : Room) (clock : SwipeClock)
    (hdenied : grantedSchedules db rfid room clock = []) :
    recordAttempt db rfid room clock =
      ({ db with
          logs := db.logs ++
            [{ id := db.nextLogId, rfid := some rfid.id, room := some room.id,
               faculty_name := "", room_code := "", rfid_code := "",
               academic_year := db.settings.current_academic_year,
               semester := db.settings.current_semester,
               open_time := clock.ts, close_time := none,
               access_granted := false,
               denial_reason := some (swipeDenialReason db rfid room clock),
               schedule := none }],
          nextLogId := db.nextLogId + 1 },
       { status := "error", access_granted := false, action := "",
         faculty := rfid.faculty.full_name,
         message := "Access denied: " ++ swipeDenialReason db rfid room clock,
         denial_reason := swipeDenialReason db rfid room clock,
         httpStatus := 200 }) := by
  simp [recordAttempt, hdenied]

/-- Helper: the return branch of `recordAttempt` as an equation. -/
theorem recordAttempt_close (db : KeyboxDB) (rfid : RFIDRegistration)
    (room : Room) (clock : SwipeClock) (x : TransactionLog)
    (hgr : grantedSchedules db rfid room clock ≠ [])
    (hopen : latestOpenLog (db.logs.filter
        (isOpenFor rfid.id room.id db.settings.current_academic_year
          db.settings.current_semester)) = some x) :
    recordAttempt db rfid room clock =
      ({ db with logs := closeLogAt db.logs x.id clock.ts },
       { status := "ok", access_granted := true, action := "return_key",
         faculty := rfid.faculty.full_name,
         message := "Key returned successfully", denial_reason := "",
         httpStatus := 200 }) := by
  have hne : (grantedSchedules db rfid room clock).isEmpty = false := by
    cases h : (grantedSchedules db rfid room clock).isEmpty
    · rfl
    · exact absurd (List.isEmpty_iff.mp h) hgr
  simp [recordAttempt, hne, hopen]

/-- Helper: the borrow branch of `recordAttempt` as an equation. -/
theorem recordAttempt_borrow (db : KeyboxDB) (rfid : RFIDRegistration)
    (room : Room) (clock : SwipeClock)
    (hgr : grantedSchedules db rfid room clock ≠ [])
    (hopen : latestOpenLog (db.logs.filter
        (isOpenFor rfid.id room.id db.settings.current_academic_year
          db.settings.current_semester)) = none) :
    recordAttempt db rfid room clock =
      ({ db with
          logs := db.logs ++
            [{ id := db.nextLogId, rfid := some rfid.id, room := some room.id,
               faculty_name := "", room_code := "", rfid_code := "",
               academic_year := db.settings.current_academic_year,
               semester := db.settings.current_semester,
               open_time := clock.ts, close_time := none,
               access_granted := true, denial_reason := none,
               schedule := (grantedSchedules db rfid room clock).head?.map
                 (fun s => s.id) }],
          nextLogId := db.nextLogId + 1 },
       { status := "ok", access_granted := true, action := "borrow_key",
         faculty := rfid.faculty.full_name,
         message := "Access granted - Key released", denial_reason := "",
         httpStatus := 200 }) := by
  have hne : (grantedSchedules db rfid room clock).isEmpty = false := by
    cases h : (grantedSchedules db rfid room clock).isEmpty
    · rfl
    · exact absurd (List.isEmpty_iff.mp h) hgr
  simp [recordAttempt, hne, hopen]

/-- C3 amended: once the badge resolves to an active credential and the room
to an active room, every denied decision (no matching window / outside the
scheduled time) inserts exactly one new Transaction Record with
`access_granted = false`, `close_time = null` and a non-empty denial reason;
the earlier policy denials (inactive credential, inactive room) return
without inserting anything — see the counterexample. -/
theorem schedule_denial_logs_exactly_one (db : KeyboxDB) (code room_code : String)
    (clock : SwipeClock) (rfid : RFIDRegistration) (room : Room)
    (hr : db.registrations.find? (fun r => r.rfid_code == code) = some rfid)
    (hact : rfid.is_active = true)
    (hroomf : db.rooms.find? (fun r => r.code == room_code) = some room)
    (hroomact : room.is_active = true)
    (hdenied : grantedSchedules db rfid room clock = []) :
    ∃ reason, reason ≠ "" ∧
      (rfid_swipe db code room_code clock).1.logs = db.logs ++
        [{ id := db.nextLogId, rfid := some rfid.id, room := some room.id,
           faculty_name := "", room_code := "", rfid_code := "",
           academic_year := db.settings.current_academic_year,
           semester := db.settings.current_semester,
           open_time := clock.ts, close_time := none, access_granted := false,
           denial_reason := some reason, schedule := none }] ∧
      (rfid_swipe db code room_code clock).2.access_granted = false ∧
      (rfid_swipe db code room_code clock).2.denial_reason = reason := by
  rw [rfid_swipe_valid db code room_code clock rfid room hr hact hroomf hroomact,
    recordAttempt_denied db rfid room clock hdenied]
  refine ⟨swipeDenialReason db rfid room clock, ?_, rfl, rfl, rfl⟩
  simp only [swipeDenialReason]
  split
  · exact outside_reason_ne_empty _
  · exact no_schedule_reason_ne_empty _ _

/-- Witness for `schedule_denial_logs_exactly_one`: the fixture store swiped
on Tuesday (no window that weekday). -/
theorem schedule_denial_logs_exactly_one_witness :
    ∃ reason, reason ≠ "" ∧
      (rfid_swipe sampleDB "RFID-001" "203" tuesdayClock).1.logs = sampleDB.logs ++
        [{ id := sampleDB.nextLogId, rfid := some sampleReg.id,
           room := some sampleRoom.id,
           faculty_name := "", room_code := "", rfid_code := "",
           academic_year := sampleDB.settings.current_academic_year,
           semester := sampleDB.settings.current_semester,
           open_time := tuesdayClock.ts, close_time := none,
           access_granted := false, denial_reason := some reason,
           schedule := none }] ∧
      (rfid_swipe sampleDB "RFID-001" "203" tuesdayClock).2.access_granted = false ∧
      (rfid_swipe sampleDB "RFID-001" "203" tuesdayClock).2.denial_reason = reason :=
  schedule_denial_logs_exactly_one sampleDB "RFID-001" "203" tuesdayClock
    sampleReg sampleRoom (by decide) (by decide) (by decide) (by decide) (by decide)

/-- Helper: a non-empty `matching_schedules_filtered` is exactly the
existence of an active window for (room, faculty, current semester) covering
the current weekday and time. -/
theorem grantedSchedules_ne_nil_iff (db : KeyboxDB) (rfid : RFIDRegistration)
    (room : Room) (clock : SwipeClock) :
    grantedSchedules db rfid room clock ≠ [] ↔
      ∃ s ∈ db.schedules, s.is_active = true ∧ s.room_id = room.id ∧
        s.faculty_id = some rfid.faculty.id ∧
        s.semester = db.settings.current_semester ∧
        scheduleDayMatch s clock.day = true ∧
        s.start_time ≤ clock.time ∧ clock.time ≤ s.end_time := by
  constructor
  · intro h
    obtain ⟨s, hs⟩ := List.exists_mem_of_ne_nil _ h
    have h1 := List.mem_filter.mp hs
    have h2 := List.mem_filter.mp h1.1
    refine ⟨s, h2.1, ?_⟩
    have hp1 := h1.2
    have hp2 := h2.2
    simp only [Bool.and_eq_true, beq_iff_eq, scheduleTimeMatch,
      decide_eq_true_eq] at hp1 hp2
    exact ⟨hp2.2, hp2.1.1.1, hp2.1.1.2, hp2.1.2, hp1.1, hp1.2.1, hp1.2.2⟩
  · rintro ⟨s, hs, hsact, hsroom, hsfac, hssem, hday, ht1, ht2⟩
    intro hnil
    unfold grantedSchedules at hnil
    rw [List.filter_eq_nil_iff] at hnil
    refine hnil s ?_ ?_
    · exact List.mem_filter.mpr ⟨hs, by simp [hsroom, hsfac, hssem, hsact]⟩
    · simp [hday, scheduleTimeMatch, ht1, ht2]

/-- C5: with an active credential and active room, access is granted iff some
active Schedule Window for (room, faculty-of-credential, current semester)
covers the current weekday (by the stored day-set, full name or 3-letter
abbreviation) and the current time within `[start_time, end_time]` inclusive;
when denied, the reason is the outside-scheduled-time text iff some matching
window covers today's weekday and the no-schedule-today text otherwise, and
the two texts are distinct for every rendering. -/
theorem swipe_grant_iff_matching_window (db : KeyboxDB) (code room_code : String)
    (clock : SwipeClock) (rfid : RFIDRegistration) (room : Room)
    (hr : db.registrations.find? (fun r => r.rfid_code == code) = some rfid)
    (hact : rfid.is_active = true)
    (hroomf : db.rooms.find? (fun r => r.code == room_code) = some room)
    (hroomact : room.is_active = true) :
    ((rfid_swipe db code room_code clock).2.access_granted = true ↔
      ∃ s ∈ db.schedules, s.is_active = true ∧ s.room_id = room.id ∧
        s.faculty_id = some rfid.faculty.id ∧
        s.semester = db.settings.current_semester ∧
        scheduleDayMatch s clock.day = true ∧
        s.start_time ≤ clock.time ∧ clock.time ≤ s.end_time) ∧
    ((rfid_swipe db code room_code clock).2.access_granted = false →
      (((matchingSchedules db rfid room).any
          (fun s => scheduleDayMatch s clock.day)) = true →
        (rfid_swipe db code room_code clock).2.denial_reason =
          outside_reason clock.time) ∧
      (((matchingSchedules db rfid room).any
          (fun s => scheduleDayMatch s clock.day)) = false →
        (rfid_swipe db code room_code clock).2.denial_reason =
          no_schedule_reason clock.day db.settings.current_semester)) ∧
    (∀ t d sem, outside_reason t ≠ no_schedule_reason d sem) := by
  rw [rfid_swipe_valid db code room_code clock rfid room hr hact hroomf hroomact]
  by_cases hemp : grantedSchedules db rfid room clock = []
  · rw [recordAttempt_denied db rfid room clock hemp]
    refine ⟨?_, ?_, fun t d sem => outside_reason_ne_no_schedule t d sem⟩
    · exact iff_of_false (by simp)
        (fun hex => (grantedSchedules_ne_nil_iff db rfid room clock).mpr hex hemp)
    · intro _
      constructor
      · intro hany
        simp only [swipeDenialReason, hany]
        rfl
      · intro hnone
        simp only [swipeDenialReason, hnone]
        rfl
  · cases hol : latestOpenLog (db.logs.filter
        (isOpenFor rfid.id room.id db.settings.current_academic_year
          db.settings.current_semester)) with
    | none =>
      rw [recordAttempt_borrow db rfid room clock hemp hol]
      refine ⟨?_, ?_, fun t d sem => outside_reason_ne_no_schedule t d sem⟩
      · exact iff_of_true rfl ((grantedSchedules_ne_nil_iff db rfid room clock).mp hemp)
      · intro hfalse
        exact absurd hfalse (by simp)
    | some x =>
      rw [recordAttempt_close db rfid room clock x hemp hol]
      refine ⟨?_, ?_, fun t d sem => outside_reason_ne_no_schedule t d sem⟩
      · exact iff_of_true rfl ((grantedSchedules_ne_nil_iff db rfid room clock).mp hemp)
      · intro hfalse
        exact absurd hfalse (by simp)

/-- Witness for `swipe_grant_iff_matching_window`: the fixture store on
Monday 08:30 — the monday/wednesday window grants. -/
theorem swipe_grant_iff_matching_window_witness :
    (rfid_swipe sampleDB "RFID-001" "203" mondayClock).2.access_granted = true ↔
      ∃ s ∈ sampleDB.schedules, s.is_active = true ∧ s.room_id = sampleRoom.id ∧
        s.faculty_id = some sampleReg.faculty.id ∧
        s.semester = sampleDB.settings.current_semester ∧
        scheduleDayMatch s mondayClock.day = true ∧
        s.start_time ≤ mondayClock.time ∧ mondayClock.time ≤ s.end_time :=
  (swipe_grant_iff_matching_window sampleDB "RFID-001" "203" mondayClock
    sampleReg sampleRoom (by decide) (by decide) (by decide) (by decide)).1

/-- C4: on a granted decision for (credential, room, current term): when an
open Transaction exists (the session ledger filter returns exactly that
record), the swipe sets `close_time = now` on that record by primary key,
keeps every other record, inserts nothing, and classifies the event as a
return; when no open Transaction exists, it appends exactly one new record
with `open_time = now`, `close_time = null`, `access_granted = true` and the
authorizing-window reference set, classified as a borrow. -/
theorem granted_swipe_borrow_or_return (db : KeyboxDB) (code room_code : String)
    (clock : SwipeClock) (rfid : RFIDRegistration) (room : Room)
    (hr : db.registrations.find? (fun r => r.rfid_code == code) = some rfid)
    (hact : rfid.is_active = true)
    (hroomf : db.rooms.find? (fun r => r.code == room_code) = some room)
    (hroomact : room.is_active = true)
    (hgranted : grantedSchedules db rfid room clock ≠ []) :
    (∀ x, db.logs.filter (isOpenFor rfid.id room.id
        db.settings.current_academic_year db.settings.current_semester) = [x] →
      (rfid_swipe db code room_code clock).1.logs = closeLogAt db.logs x.id clock.ts ∧
      (rfid_swipe db code room_code clock).1.logs.length = db.logs.length ∧
      ({ x with close_time := some clock.ts } : TransactionLog) ∈
        (rfid_swipe db code room_code clock).1.logs ∧
      (∀ t ∈ db.logs, (t.id == x.id) = false →
        t ∈ (rfid_swipe db code room_code clock).1.logs) ∧
      (rfid_swipe db code room_code clock).2.action = "return_key") ∧
    (db.logs.filter (isOpenFor rfid.id room.id
        db.settings.current_academic_year db.settings.current_semester) = [] →
      (rfid_swipe db code room_code clock).1.logs = db.logs ++
        [{ id := db.nextLogId, rfid := some rfid.id, room := some room.id,
           faculty_name := "", room_code := "", rfid_code := "",
           academic_year := db.settings.current_academic_year,
           semester := db.settings.current_semester,
           open_time := clock.ts, close_time := none,
           access_granted := true, denial_reason := none,
           schedule := (grantedSchedules db rfid room clock).head?.map
             (fun s => s.id) }] ∧
      (rfid_swipe db code room_code clock).2.action = "borrow_key" ∧
      ((grantedSchedules db rfid room clock).head?.map (fun s => s.id)).isSome =
        true) := by
  rw [rfid_swipe_valid db code room_code clock rfid room hr hact hroomf hroomact]
  constructor
  · intro x hfil
    have hopen : latestOpenLog (db.logs.filter (isOpenFor rfid.id room.id
        db.settings.current_academic_year db.settings.current_semester)) = some x := by
      rw [hfil]
      rfl
    rw [recordAttempt_close db rfid room clock x hgranted hopen]
    have hxmem : x ∈ db.logs := by
      have : x ∈ db.logs.filter (isOpenFor rfid.id room.id
          db.settings.current_academic_year db.settings.current_semester) := by
        rw [hfil]
        exact List.mem_singleton.mpr rfl
      exact (List.mem_filter.mp this).1
    refine ⟨rfl, ?_, ?_, ?_, rfl⟩
    · simp [closeLogAt]
    · have := List.mem_map_of_mem
        (fun t => if t.id == x.id then { t with close_time := some clock.ts } else t)
        hxmem
      simpa [closeLogAt] using this
    · intro t ht hne
      have := List.mem_map_of_mem
        (fun u => if u.id == x.id then { u with close_time := some clock.ts } else u)
        ht
      simp only [hne] at this
      simpa [closeLogAt, hne] using this
  · intro hfil
    have hopen : latestOpenLog (db.logs.filter (isOpenFor rfid.id room.id
        db.settings.current_academic_year db.settings.current_semester)) = none := by
      rw [hfil]
      rfl
    rw [recordAttempt_borrow db rfid room clock hgranted hopen]
    refine ⟨rfl, rfl, ?_⟩
    cases hg : grantedSchedules db rfid room clock with
    | nil => exact absurd hg hgranted
    | cons s ss => simp

/-- Witness for `granted_swipe_borrow_or_return`: the fixture store on
Monday 08:30 with no open session — the borrow branch fires and appends one
open record with the authorizing window set. -/
theorem granted_swipe_borrow_or_return_witness :
    (rfid_swipe sampleDB "RFID-001" "203" mondayClock).1.logs = sampleDB.logs ++
      [{ id := sampleDB.nextLogId, rfid := some sampleReg.id,
         room := some sampleRoom.id,
         faculty_name := "", room_code := "", rfid_code := "",
         academic_year := sampleDB.settings.current_academic_year,
         semester := sampleDB.settings.current_semester,
         open_time := mondayClock.ts, close_time := none,
         access_granted := true, denial_reason := none,
         schedule := (grantedSchedules sampleDB sampleReg sampleRoom
           mondayClock).head?.map (fun s => s.id) }] ∧
    (rfid_swipe sampleDB "RFID-001" "203" mondayClock).2.action = "borrow_key" ∧
    ((grantedSchedules sampleDB sampleReg sampleRoom mondayClock).head?.map
      (fun s => s.id)).isSome = true :=
  (granted_swipe_borrow_or_return sampleDB "RFID-001" "203" mondayClock
    sampleReg sampleRoom (by decide) (by decide) (by decide) (by decide)
    (by decide)).2 (by decide)

/-- Helper: filtering a mapped list where the map can only falsify the
predicate never increases the filtered length. -/
theorem length_filter_map_le {α : Type} (g : α → α) (p : α → Bool)
    (hg : ∀ a, p (g a) = true → g a = a) (l : List α) :
    ((l.map g).filter p).length ≤ (l.filter p).length := by
  induction l with
  | nil => simp
  | cons a l ih =>
    simp only [List.map_cons, List.filter_cons]
    by_cases hpa : p (g a) = true
    · have hga := hg a hpa
      rw [hga] at hpa ⊢
      simp only [hpa, if_true]
      simpa using ih
    · have hpf : p (g a) = false := Bool.eq_false_iff.mpr hpa
      cases hpb : p a
      · simp only [hpf, hpb, if_false]
        exact ih
      · simp only [hpf, hpb, if_false, if_true]
        exact Nat.le_succ_of_le ih

/-- Helper: closing a row can only lower an open-session count. -/
theorem openCount_closeLogAt_le (logs : List TransactionLog) (target : Nat)
    (ts : Int) (rid room_id : Nat) (ay sem : String) :
    openCount (closeLogAt logs target ts) rid room_id ay sem ≤
      openCount logs rid room_id ay sem := by
  unfold openCount closeLogAt
  apply length_filter_map_le
  intro t hp
  by_cases hid : (t.id == target) = true
  · rw [if_pos hid] at hp
    simp [isOpenFor] at hp
  · rw [if_neg hid]

/-- Helper: appending one row adds its own contribution to an open count. -/
theorem openCount_append (logs : List TransactionLog) (r : TransactionLog)
    (rid room_id : Nat) (ay sem : String) :
    openCount (logs ++ [r]) rid room_id ay sem =
      openCount logs rid room_id ay sem +
        (if isOpenFor rid room_id ay sem r = true then 1 else 0) := by
  unfold openCount
  rw [List.filter_append, List.length_append]
  congr 1
  cases h : isOpenFor rid room_id ay sem r <;> simp [List.filter, h]

/-- Helper: the descending-sort head is `none` only on the empty list. -/
theorem latestOpenLog_eq_none (l : List TransactionLog)
    (h : latestOpenLog l = none) : l = [] := by
  cases l with
  | nil => rfl
  | cons t ts =>
    exfalso
    unfold latestOpenLog at h
    revert h
    cases latestOpenLog ts with
    | none => simp
    | some u =>
      simp only
      split <;> simp

/-- Helper: an open-session predicate pins the key fields of the row. -/
theorem isOpenFor_fields {rid room_id : Nat} {ay sem : String}
    {r : TransactionLog} (h : isOpenFor rid room_id ay sem r = true) :
    r.rfid = some rid ∧ r.room = some room_id ∧ r.academic_year = ay ∧
      r.semester = sem ∧ r.close_time = none ∧ r.access_granted = true := by
  simp only [isOpenFor, Bool.and_eq_true, beq_iff_eq] at h
  exact ⟨h.1.1.1.1.1, h.1.1.1.1.2, h.1.1.1.2, h.1.1.2, h.1.2, h.2⟩

/-- Helper: `recordAttempt` preserves the at-most-one-open invariant for
every (credential, room, term) key. -/
theorem recordAttempt_preserves_invariant (db : KeyboxDB)
    (rfid : RFIDRegistration) (room : Room) (clock : SwipeClock)
    (hinv : ∀ rid room_id ay sem, openCount db.logs rid room_id ay sem ≤ 1) :
    ∀ rid room_id ay sem,
      openCount (recordAttempt db rfid room clock).1.logs rid room_id ay sem ≤ 1 := by
  intro rid room_id ay sem
  by_cases hemp : grantedSchedules db rfid room clock = []
  · rw [recordAttempt_denied db rfid room clock hemp]
    simp only
    rw [openCount_append]
    have hnot : isOpenFor rid room_id ay sem
        { id := db.nextLogId, rfid := some rfid.id, room := some room.id,
          faculty_name := "", room_code := "", rfid_code := "",
          academic_year := db.settings.current_academic_year,
          semester := db.settings.current_semester,
          open_time := clock.ts, close_time := none, access_granted := false,
          denial_reason := some (swipeDenialReason db rfid room clock),
          schedule := none } = false := by
      simp [isOpenFor]
    rw [hnot]
    simpa using hinv rid room_id ay sem
  · cases hol : latestOpenLog (db.logs.filter
        (isOpenFor rfid.id room.id db.settings.current_academic_year
          db.settings.current_semester)) with
    | some x =>
      rw [recordAttempt_close db rfid room clock x hemp hol]
      simp only
      exact le_trans (openCount_closeLogAt_le db.logs x.id clock.ts rid room_id ay sem)
        (hinv rid room_id ay sem)
    | none =>
      have hfil := latestOpenLog_eq_none _ hol
      rw [recordAttempt_borrow db rfid room clock hemp hol]
      simp only
      rw [openCount_append]
      by_cases hkey : isOpenFor rid room_id ay sem
          { id := db.nextLogId, rfid := some rfid.id, room := some room.id,
            faculty_name := "", room_code := "", rfid_code := "",
            academic_year := db.settings.current_academic_year,
            semester := db.settings.current_semester,
            open_time := clock.ts, close_time := none, access_granted := true,
            denial_reason := none,
            schedule := (grantedSchedules db rfid room clock).head?.map
              (fun s => s.id) } = true
    
      · obtain ⟨h1, h2, h3, h4, _, _⟩ := isOpenFor_fields hkey
        simp only [Option.some.injEq] at h1 h2
        have hzero : openCount db.logs rid room_id ay sem = 0 := by
          unfold openCount
          rw [← h1, ← h2, ← h3, ← h4]
          rw [hfil]
          rfl
        rw [hkey, hzero]
        simp
      · have hf : isOpenFor rid room_id ay sem
            { id := db.nextLogId, rfid := some rfid.id, room := some room.id,
              faculty_name := "", room_code := "", rfid_code := "",
              academic_year := db.settings.current_academic_year,
              semester := db.settings.current_semester,
              open_time := clock.ts, close_time := none, access_granted := true,
              denial_reason := none,
              schedule := (grantedSchedules db rfid room clock).head?.map
                (fun s => s.id) } = false := Bool.eq_false_iff.mpr hkey
        rw [hf]
        simpa using hinv rid room_id ay sem

/-- C1 amended: the "currently out" invariant — at most one Transaction
Record per (credential, room, term) with `close_time = null` and
`access_granted = true` — is preserved by the live swipe path in every
branch (errors, denial insert, borrow insert, return close); the
offline-event merge does NOT preserve it (see the counterexample). -/
theorem swipe_preserves_open_invariant (db : KeyboxDB) (code room_code : String)
    (clock : SwipeClock)
    (hinv : ∀ rid room_id ay sem, openCount db.logs rid room_id ay sem ≤ 1) :
    ∀ rid room_id ay sem,
      openCount (rfid_swipe db code room_code clock).1.logs rid room_id ay sem ≤ 1 := by
  intro rid room_id ay sem
  cases hr : db.registrations.find? (fun r => r.rfid_code == code) with
  | none =>
    simp only [rfid_swipe, hr]
    exact hinv rid room_id ay sem
  | some rfid =>
    cases hact : rfid.is_active with
    | false =>
      simp only [rfid_swipe, hr, hact]
      simpa using hinv rid room_id ay sem
    | true =>
      cases hroomf : db.rooms.find? (fun r => r.code == room_code) with
      | none =>
        simp only [rfid_swipe, hr, hact, hroomf]
        simpa using hinv rid room_id ay sem
      | some room =>
        cases hroomact : room.is_active with
        | false =>
          simp only [rfid_swipe, hr, hact, hroomf, hroomact]
          simpa using hinv rid room_id ay sem
        | true =>
          rw [rfid_swipe_valid db code room_code clock rfid room hr hact
            hroomf hroomact]
          exact recordAttempt_preserves_invariant db rfid room clock hinv
            rid room_id ay sem

/-- Witness for `swipe_preserves_open_invariant`: the fixture store with one
open session, swiped again on Monday 08:30 (the return branch closes it);
the count for the fixture key stays at most 1. -/
theorem swipe_preserves_open_invariant_witness :
    openCount (rfid_swipe sampleDBOpen "RFID-001" "203" mondayClock).1.logs
      1 1 "2025-2026" "1st" ≤ 1 :=
  swipe_preserves_open_invariant sampleDBOpen "RFID-001" "203" mondayClock
    (fun rid room_id ay sem => by
      simpa [openCount] using List.length_filter_le
        (isOpenFor rid room_id ay sem) sampleDBOpen.logs)
    1 1 "2025-2026" "1st"
